import Mathlib

/-
  Verification development for the Route Weather application.

  The repository consists of a React/TypeScript frontend (under
  src/frontend) and, per its README, a Python FastAPI backend
  (services for route sampling, weather resolution and scoring) whose
  source is not part of this snapshot.  Frontend functions are embedded
  directly from the TypeScript source; backend components are modelled
  from the specification where noted in the doc comments.

  Numbers are embedded as rationals (JS numbers / Python floats used by
  the code only through +, -, *, /, round and comparisons on the values
  the claims concern), except the haversine distance, which genuinely
  uses transcendental trigonometry and is embedded over the reals.
-/

namespace RouteWeather

/-! ## Data model (frontend/src/types.ts) -/

/-- LatLng from types.ts: latitude and longitude in degrees. -/
structure LatLng where
  lat : ℚ
  lng : ℚ
deriving DecidableEq, Repr

/-- WeatherData from types.ts (the WeatherObservation of the backend). -/
structure WeatherData where
  temperature_c : ℚ
  apparent_temperature_c : ℚ
  precipitation_mm : ℚ
  precipitation_probability : ℚ
  weather_code : ℕ
  weather_description : String
  wind_speed_kmh : ℚ
  humidity_percent : ℚ
deriving DecidableEq, Repr

/-- A waypoint as delivered by the pipeline.  The spec (§3) declares the
weather field optional: "may be absent (fetch failure) on a waypoint —
callers must tolerate weather == null"; so it is embedded as an Option.
The estimated time is embedded as seconds since the epoch. -/
structure Waypoint where
  location : LatLng
  minutes_from_start : ℚ
  estimated_time_sec : ℤ
  weather : Option WeatherData
deriving DecidableEq, Repr

/-! ## Frontend unit helpers (frontend/src/utils.ts) -/

/-- toF from utils.ts: Math.round(c * 9 / 5 + 32).  JS Math.round is
floor(x + 1/2), which is the Mathlib round on ℚ. -/
def toF (c : ℚ) : ℤ := round (c * 9 / 5 + 32)

/-- toMph from utils.ts: Math.round(kmh * 0.621371). -/
def toMph (kmh : ℚ) : ℤ := round (kmh * (621371 / 1000000 : ℚ))

/-- weatherEmoji from utils.ts: maps a WMO weather code to an emoji. -/
def weatherEmoji (code : ℕ) : String :=
  if code = 0 then "☀️"
  else if code ≤ 3 then "⛅"
  else if code ≤ 48 then "🌫️"
  else if code ≤ 55 then "🌦️"
  else if code ≤ 67 then "🌧️"
  else if code ≤ 77 then "❄️"
  else if code ≤ 82 then "🌦️"
  else if code ≤ 86 then "🌨️"
  else "⚡"

/-! ## WeatherPanel rendering (frontend/src/components/WeatherPanel.tsx)

WeatherPanel maps over the waypoints of the selected route and, for each row,
destructures wp.weather and reads weather.temperature_c,
weather.wind_speed_kmh, weather.weather_code and
weather.precipitation_probability with no null guard (lines 24-32 of
WeatherPanel.tsx).  In the embedding a field read on a null weather is
the JS TypeError, i.e. the row fails to render: the renderer returns
none. -/

/-- The data of one rendered row of the weather panel. -/
structure PanelRow where
  emoji : String
  temp : ℤ
  wind : ℤ
  precip_probability : ℚ
deriving DecidableEq, Repr

/-- One row of the WeatherPanel waypoint list.  Faithful to the source:
the weather object is dereferenced unconditionally, so a waypoint whose
weather is null makes the row computation fail (none = thrown
TypeError). -/
def renderPanelRow (useFahrenheit : Bool) (wp : Waypoint) : Option PanelRow :=
  match wp.weather with
  | none => none
  | some w =>
      some
        { emoji := weatherEmoji w.weather_code
          temp := if useFahrenheit then toF w.temperature_c else round w.temperature_c
          wind := if useFahrenheit then toMph w.wind_speed_kmh else round w.wind_speed_kmh
          precip_probability := w.precipitation_probability }

/-- Rendering the whole waypoint list of WeatherPanel: every row must
render for the panel to render. -/
def renderPanel (useFahrenheit : Bool) (wps : List Waypoint) : Option (List PanelRow) :=
  wps.mapM (renderPanelRow useFahrenheit)

/-- A concrete waypoint whose weather fetch failed (weather = null). -/
def nullWeatherWaypoint : Waypoint :=
  { location := { lat := 37 + 77/100, lng := -(122 + 42/100) }
    minutes_from_start := 15
    estimated_time_sec := 1771236000
    weather := none }

/-! ## Recent-routes history (frontend/src/components/RecentRoutes.tsx)

loadHistory/saveToHistory persist a list of RecentRoute entries in
localStorage under one key.  Storage is embedded as the parsed content
of that key: none when absent.  saveToHistory(entry) filters out prior
entries with the same origin and destination, prepends the entry and
stores the first MAX_ENTRIES elements. -/

/-- RecentRoute from RecentRoutes.tsx. -/
structure RecentRoute where
  origin : String
  destination : String
  originDisplay : String
  destinationDisplay : String
  timestamp : ℤ
deriving DecidableEq, Repr

/-- MAX_ENTRIES from RecentRoutes.tsx. -/
def MAX_ENTRIES : ℕ := 5

/-- The localStorage slot for the history key: none when the key is
absent (or its JSON does not parse), some l when it holds the list l. -/
def HistoryStorage : Type := Option (List RecentRoute)

/-- loadHistory: parse the stored list, defaulting to the empty list. -/
def loadHistory (st : HistoryStorage) : List RecentRoute :=
  st.getD []

/-- saveToHistory from RecentRoutes.tsx: drop entries with the same
origin and destination, prepend the new entry, keep the first
MAX_ENTRIES, and store the result. -/
def saveToHistory (entry : RecentRoute) (st : HistoryStorage) : HistoryStorage :=
  let history := loadHistory st
  let filtered := history.filter
    (fun h => !(h.origin == entry.origin && h.destination == entry.destination))
  some ((entry :: filtered).take MAX_ENTRIES)

/-! ## Route Sampler (backend services/sampling.py) -/

/-- Modelled from the spec: the backend sampling service
(backend/app/services/sampling.py) is not part of the src snapshot.
§4.2/Glossary: the cadence is a fixed 15 minutes of route time. -/
def CADENCE_SECONDS : ℕ := 900

/-- Modelled from the spec: §4.2 step 2 — the target offsets
k * CADENCE_MINUTES * 60 for k = 0, 1, 2, ... that are ≤ totalDuration
(seconds). -/
def cadenceTargets (totalDuration : ℕ) : List ℕ :=
  (List.range (totalDuration / CADENCE_SECONDS + 1)).map (· * CADENCE_SECONDS)

/-- Modelled from the spec: §4.2 steps 2, 5 and 6 — the time offsets
(seconds from start) of the waypoints the sampler emits: one per cadence
target, plus a final waypoint at the true end of the route when the last
emitted offset is not exactly totalDuration.  Steps 3-4 (locating each
offset in the geometry) do not affect the offsets or their count and
are not modelled. -/
def sampleOffsets (totalDuration : ℕ) : List ℕ :=
  if (cadenceTargets totalDuration).getLast? = some totalDuration then
    cadenceTargets totalDuration
  else cadenceTargets totalDuration ++ [totalDuration]

/-- Modelled from the spec: §4.2 step 5 — each emitted waypoint carries
minutes_from_start = target / 60. -/
def waypointMinutes (totalDuration : ℕ) : List ℚ :=
  (sampleOffsets totalDuration).map (fun (s : ℕ) => (s : ℚ) / 60)

/-! ## Weather Key Resolver (backend, §4.3) -/

/-- WeatherBucketKey, §3/§4.3: latitude and longitude rounded to 2
decimal places and the containing clock hour. -/
structure WeatherBucketKey where
  lat_rounded : ℤ
  lng_rounded : ℤ
  hour_bucket : ℤ
deriving DecidableEq, Repr

/-- Modelled from the spec: §4.3 — the backend weather service is not
part of the src snapshot.  bucketKey rounds lat/lng to 2 decimals
(stored as hundredths) and truncates the estimated time to the
containing clock hour. -/
def bucketKey (wp : Waypoint) : WeatherBucketKey :=
  { lat_rounded := round (wp.location.lat * 100)
    lng_rounded := round (wp.location.lng * 100)
    hour_bucket := wp.estimated_time_sec / 3600 }

/-! ## Weather Resolver (backend, §4.4)

Modelled from the spec: backend/app/services/weather.py is not in the
src snapshot.  §4.4: each distinct bucket key issues exactly one fetch;
after all fetches settle, the fan-out join assigns every waypoint the
observation (or null, on failure of that key) associated with its bucket
key.  The settled per-key outcomes are a function of the key alone,
embedded as fetchOutcome : WeatherBucketKey → Option WeatherData. -/

/-- Fan-out step for one waypoint: assign the settled observation (or
null) of the bucket key of the waypoint. -/
def attachWeather (fetchOutcome : WeatherBucketKey → Option WeatherData)
    (wp : Waypoint) : Waypoint :=
  { wp with weather := fetchOutcome (bucketKey wp) }

/-- Modelled from the spec: §4.4 fan-out — after all fetches settle,
every waypoint of the request receives the outcome of its key (a pure
in-memory join). -/
def resolveRequest (fetchOutcome : WeatherBucketKey → Option WeatherData)
    (wps : List Waypoint) : List Waypoint :=
  wps.map (attachWeather fetchOutcome)

/-- The all-success settled outcome: every key fetched its observation. -/
def allSuccess (obs : WeatherBucketKey → WeatherData) :
    WeatherBucketKey → Option WeatherData :=
  fun k => some (obs k)

/-- The settled outcome when the fetch of exactly one key failed: that key
yields null, every other key its observation (§4.4 failure isolation). -/
def oneKeyFailed (obs : WeatherBucketKey → WeatherData)
    (failedKey : WeatherBucketKey) : WeatherBucketKey → Option WeatherData :=
  fun k => if k = failedKey then none else some (obs k)

/-! ## Scoring Engine (backend services/scoring.py, §4.5)

Modelled from the spec: backend/app/services/scoring.py is not in the
src snapshot.  duration_score is a monotonically decreasing function of
duration_ratio worth 100 at ratio 1.0; overall_score is a fixed
weighted blend of the model output and duration_score; all scores are
clamped to [0, 100]; the recommended index is the argmax of
overall_score, ties broken by lower duration_ratio, then by lowest
route index. -/

/-- Clamp a score to [0, 100] (§4.5: all three scores are clamped). -/
def clampScore (x : ℚ) : ℚ := max 0 (min 100 x)

/-- Modelled from the spec: duration_score — 100 at ratio 1.0, decaying
linearly as the ratio grows, clamped to [0, 100]. -/
def durationScore (ratio : ℚ) : ℚ := clampScore (100 - 50 * (ratio - 1))

/-- Modelled from the spec: the fixed blend weight of the model output
in overall_score (a tunable constant, not derived per-request). -/
def MODEL_WEIGHT : ℚ := 7 / 10

/-- Modelled from the spec: the fixed blend weight of duration_score in
overall_score. -/
def DURATION_WEIGHT : ℚ := 3 / 10

/-- Modelled from the spec: overall_score — the fixed weighted blend of
the (clamped) model output and duration_score, clamped to [0, 100]. -/
def overallScore (modelOutput ratio : ℚ) : ℚ :=
  clampScore (MODEL_WEIGHT * clampScore modelOutput +
    DURATION_WEIGHT * durationScore ratio)

/-- Modelled from the spec: per scored route, the pair
(overall_score, duration_ratio) from the duration of the route, the minimum
duration of the request and the model output on the feature vector of
the route. -/
def scoreRoute (minDuration : ℚ) (durationAndModel : ℚ × ℚ) : ℚ × ℚ :=
  let ratio := durationAndModel.1 / minDuration
  (overallScore durationAndModel.2 ratio, ratio)

/-- Modelled from the spec: score every route of the request against
the minimum total duration of the request (routes given as pairs of total
duration and model output on their feature vector). -/
def scoreRoutes (minDuration : ℚ) (routes : List (ℚ × ℚ)) : List (ℚ × ℚ) :=
  routes.map (scoreRoute minDuration)

/-- Scan for the recommended index: best holds the leading candidate
(index, overall_score, duration_ratio); a later route wins only by a
strictly higher overall_score, or an equal score and a strictly lower
duration_ratio — so equal candidates keep the lowest index. -/
def recommendAux (best : ℕ × ℚ × ℚ) (i : ℕ) : List (ℚ × ℚ) → ℕ
  | [] => best.1
  | (s, r) :: rest =>
      if best.2.1 < s ∨ (best.2.1 = s ∧ r < best.2.2) then
        recommendAux (i, s, r) (i + 1) rest
      else
        recommendAux best (i + 1) rest

/-- Modelled from the spec: §4.5 recommendation —
recommended_route_index = argmax of overall_score across the scored
routes; ties broken by lower duration_ratio, then by lowest route
index.  (Defined as 0 on the empty list, which valid input never is:
a request has 1..N routes, §6.) -/
def recommendIndex (scored : List (ℚ × ℚ)) : ℕ :=
  match scored with
  | [] => 0
  | (s, r) :: rest => recommendAux (0, s, r) 1 rest

/-! ## Weather Resolver concurrency (backend, §4.4/§5)

Modelled from the spec: backend/app/services/weather.py is not in the
src snapshot.  §5: the resolver issues up to 5 simultaneous external
fetches, enforced by a counting semaphore / bounded worker pool; further
keys queue until a slot frees.  The pool is embedded as a transition
system over the counts of queued, in-flight and settled keys; any
interleaving of starts and completions is a path of the step
relation. -/

/-- MAX_CONCURRENT_WEATHER_FETCHES, §4.4: at most 5 fetches in flight. -/
def MAX_CONCURRENT_WEATHER_FETCHES : ℕ := 5

/-- The state of the fetch pool of one request: keys still queued, keys
with a fetch in flight, keys whose fetch has settled. -/
structure FetchPoolState where
  pending : ℕ
  inFlight : ℕ
  settled : ℕ
deriving DecidableEq, Repr

/-- One scheduler transition: a queued fetch may start only while fewer
than MAX_CONCURRENT_WEATHER_FETCHES are in flight (the semaphore), and
an in-flight fetch may settle (success or failure) at any time. -/
inductive FetchPoolStep : FetchPoolState → FetchPoolState → Prop
  | start : ∀ s : FetchPoolState, 0 < s.pending →
      s.inFlight < MAX_CONCURRENT_WEATHER_FETCHES →
      FetchPoolStep s ⟨s.pending - 1, s.inFlight + 1, s.settled⟩
  | settle : ∀ s : FetchPoolState, 0 < s.inFlight →
      FetchPoolStep s ⟨s.pending, s.inFlight - 1, s.settled + 1⟩

/-- The states reachable while resolving a request with the given number
of distinct bucket keys, starting from all keys queued and nothing in
flight. -/
inductive FetchPoolReachable (keys : ℕ) : FetchPoolState → Prop
  | init : FetchPoolReachable keys ⟨keys, 0, 0⟩
  | step : ∀ {s t : FetchPoolState}, FetchPoolReachable keys s →
      FetchPoolStep s t → FetchPoolReachable keys t

/-! ## Geo math (backend, §4.1) -/

/-- Modelled from the spec: degree-to-radian conversion used by the
haversine formula. -/
noncomputable def radians (deg : ℝ) : ℝ := deg * Real.pi / 180

/-- A geographic point for the geo-math component (§3): degrees,
WGS84. -/
structure GeoPoint where
  lat : ℝ
  lng : ℝ

/-- The mean Earth radius, in meters. -/
def EARTH_RADIUS_METERS : ℚ := 6371000

/-- Modelled from the spec: §4.1 haversineMeters — the backend geo math
(in backend/app/services/sampling.py) is not in the src snapshot.  The
standard haversine great-circle distance: with h the haversine of the
central angle, the distance is 2 R arcsin (sqrt h). -/
noncomputable def haversineMeters (a b : GeoPoint) : ℝ :=
  2 * (EARTH_RADIUS_METERS : ℝ) *
    Real.arcsin (Real.sqrt
      (Real.sin (radians (b.lat - a.lat) / 2) ^ 2 +
        Real.cos (radians a.lat) * Real.cos (radians b.lat) *
          Real.sin (radians (b.lng - a.lng) / 2) ^ 2))

/-- The north pole with longitude 0. -/
def poleA : GeoPoint := { lat := 90, lng := 0 }

/-- The north pole with longitude 90: a different coordinate pair at
zero great-circle distance from poleA. -/
def poleB : GeoPoint := { lat := 90, lng := 90 }

/-! ## Theorems -/

/-- C1: the claim says every consumer of a waypoint tolerates a null
weather value and in particular rendering the waypoint list of a route
succeeds for a null-weather waypoint.  The code does the opposite:
WeatherPanel dereferences wp.weather unconditionally, so the row — and
with it the panel — fails to render on the waypoint whose weather fetch
failed, exactly the situation §4.4 of the spec requires the pipeline to
survive. -/
theorem weatherPanel_crashes_on_null_weather :
    nullWeatherWaypoint.weather = none ∧
    renderPanelRow true nullWeatherWaypoint = none ∧
    renderPanel true [nullWeatherWaypoint] = none :=
  ⟨rfl, rfl, rfl⟩

/-- C10: after saveToHistory(e), loadHistory() starts with e, carries no
other entry with the same origin and destination, and has at most
MAX_ENTRIES entries. -/
theorem saveToHistory_correct (entry : RecentRoute) (st : HistoryStorage) :
    (loadHistory (saveToHistory entry st)).head? = some entry ∧
    (∀ h ∈ (loadHistory (saveToHistory entry st)).tail,
      ¬(h.origin = entry.origin ∧ h.destination = entry.destination)) ∧
    (loadHistory (saveToHistory entry st)).length ≤ MAX_ENTRIES := by
  refine ⟨?_, ?_, ?_⟩
  · simp [loadHistory, saveToHistory, MAX_ENTRIES]
  · intro h hmem
    simp only [loadHistory, saveToHistory, MAX_ENTRIES, Option.getD_some,
      List.take_succ_cons, List.tail_cons] at hmem
    have hf : h ∈ (Option.getD st []).filter
        (fun h => !(h.origin == entry.origin && h.destination == entry.destination)) :=
      List.mem_of_mem_take hmem
    have := (List.mem_filter.mp hf).2
    simp only [Bool.not_eq_true', Bool.and_eq_false_iff, beq_eq_false_iff_ne,
      ne_eq] at this
    rintro ⟨h1, h2⟩
    rcases this with h3 | h3 <;> exact h3 (by simp [h1, h2])
  · simp [loadHistory, saveToHistory, MAX_ENTRIES]

/-- Witness for C10 at a concrete entry and prior history: the saved
entry heads the list, the stale duplicate is gone (checked on the one
surviving older entry), and the cap holds. -/
theorem saveToHistory_correct_witness :
    (loadHistory (saveToHistory ⟨"a", "b", "A", "B", 5⟩
      (some [⟨"a", "b", "A", "B", 1⟩, ⟨"c", "d", "C", "D", 2⟩]))).head? =
        some ⟨"a", "b", "A", "B", 5⟩ ∧
    ¬((RecentRoute.mk "c" "d" "C" "D" 2).origin = "a" ∧
      (RecentRoute.mk "c" "d" "C" "D" 2).destination = "b") ∧
    (loadHistory (saveToHistory ⟨"a", "b", "A", "B", 5⟩
      (some [⟨"a", "b", "A", "B", 1⟩, ⟨"c", "d", "C", "D", 2⟩]))).length ≤
        MAX_ENTRIES := by
  refine ⟨(saveToHistory_correct _ _).1, ?_, (saveToHistory_correct _ _).2.2⟩
  exact (saveToHistory_correct ⟨"a", "b", "A", "B", 5⟩
    (some [⟨"a", "b", "A", "B", 1⟩, ⟨"c", "d", "C", "D", 2⟩])).2.1
    ⟨"c", "d", "C", "D", 2⟩ (by decide)

/-- C8: along every path of the fetch-pool transition system — every
interleaving of fetch starts and completions, from the initial state of
any request — the number of fetches in flight never exceeds
MAX_CONCURRENT_WEATHER_FETCHES. -/
theorem weatherFetch_concurrency_cap (keys : ℕ) (s : FetchPoolState)
    (h : FetchPoolReachable keys s) :
    s.inFlight ≤ MAX_CONCURRENT_WEATHER_FETCHES := by
  induction h with
  | init => exact Nat.zero_le _
  | step hr hstep ih =>
      cases hstep with
      | start hp hc => exact hc
      | settle hf => exact le_trans (Nat.sub_le _ _) ih

/-- Witness for C8: the state after starting one of three queued
fetches is reachable and respects the cap. -/
theorem weatherFetch_concurrency_cap_witness :
    (FetchPoolState.mk 2 1 0).inFlight ≤ MAX_CONCURRENT_WEATHER_FETCHES :=
  weatherFetch_concurrency_cap 3 _
    (FetchPoolReachable.step FetchPoolReachable.init
      (FetchPoolStep.start ⟨3, 0, 0⟩ (by decide) (by decide)))

/-- The scan of recommendAux only ever returns an index below the range
it has seen: its result is below i + length when the best index so far
is below i. -/
theorem recommendAux_lt : ∀ (l : List (ℚ × ℚ)) (best : ℕ × ℚ × ℚ) (i : ℕ),
    best.1 < i → recommendAux best i l < i + l.length := by
  intro l
  induction l with
  | nil => intro best i h; simp only [recommendAux, List.length_nil, Nat.add_zero]; exact h
  | cons hd tl ih =>
      intro best i h
      obtain ⟨s, r⟩ := hd
      simp only [recommendAux, List.length_cons]
      split
      · have := ih (i, s, r) (i + 1) (Nat.lt_succ_self i)
        omega
      · have := ih best (i + 1) (Nat.lt_succ_of_lt h)
        omega

/-- The recommended index is a valid index into any nonempty scored
list. -/
theorem recommendIndex_lt (scored : List (ℚ × ℚ)) (h : scored ≠ []) :
    recommendIndex scored < scored.length := by
  cases scored with
  | nil => exact absurd rfl h
  | cons hd rest =>
      obtain ⟨s, r⟩ := hd
      simp only [recommendIndex, List.length_cons]
      have := recommendAux_lt rest (0, s, r) 1 Nat.zero_lt_one
      omega

/-- C2: for every request that produces a Recommendation (a nonempty
route list), recommended_route_index is in range of both the routes list
and the index-aligned scores list. -/
theorem recommendation_index_valid (minDuration : ℚ) (routes : List (ℚ × ℚ))
    (h : routes ≠ []) :
    recommendIndex (scoreRoutes minDuration routes) < routes.length ∧
    recommendIndex (scoreRoutes minDuration routes) <
      (scoreRoutes minDuration routes).length := by
  have hlen : (scoreRoutes minDuration routes).length = routes.length :=
    List.length_map _ _
  have hne : scoreRoutes minDuration routes ≠ [] := fun hmap =>
    h (List.map_eq_nil_iff.mp hmap)
  have hlt := recommendIndex_lt _ hne
  omega

/-- Witness for C2 on a concrete two-route request. -/
theorem recommendation_index_valid_witness :
    recommendIndex (scoreRoutes 60 [((60 : ℚ), (50 : ℚ)), (72, 50)]) <
      ([((60 : ℚ), (50 : ℚ)), (72, 50)]).length ∧
    recommendIndex (scoreRoutes 60 [((60 : ℚ), (50 : ℚ)), (72, 50)]) <
      (scoreRoutes 60 [((60 : ℚ), (50 : ℚ)), (72, 50)]).length :=
  recommendation_index_valid 60 _ (by simp)

/-- Attaching weather never changes the bucket key of a waypoint. -/
theorem bucketKey_attachWeather (fetchOutcome : WeatherBucketKey → Option WeatherData)
    (wp : Waypoint) : bucketKey (attachWeather fetchOutcome wp) = bucketKey wp :=
  rfl

/-- Every waypoint coming out of the fan-out join carries exactly the
settled outcome of its own bucket key. -/
theorem resolved_weather_eq (fetchOutcome : WeatherBucketKey → Option WeatherData)
    (wps : List Waypoint) (w : Waypoint)
    (hw : w ∈ resolveRequest fetchOutcome wps) :
    w.weather = fetchOutcome (bucketKey w) := by
  obtain ⟨wp, _, rfl⟩ := List.mem_map.mp hw
  rfl

/-- C5: within one request, two waypoints with equal bucket keys —
across any routes — are assigned the identical observation value (or
both null) by the resolver. -/
theorem weather_fanout_consistent (fetchOutcome : WeatherBucketKey → Option WeatherData)
    (wps : List Waypoint) (w1 w2 : Waypoint)
    (h1 : w1 ∈ resolveRequest fetchOutcome wps)
    (h2 : w2 ∈ resolveRequest fetchOutcome wps)
    (hk : bucketKey w1 = bucketKey w2) :
    w1.weather = w2.weather := by
  rw [resolved_weather_eq fetchOutcome wps w1 h1,
    resolved_weather_eq fetchOutcome wps w2 h2, hk]

/-- A concrete observation for the resolver witnesses. -/
def clearObservation : WeatherData :=
  { temperature_c := 18
    apparent_temperature_c := 16
    precipitation_mm := 0
    precipitation_probability := 10
    weather_code := 1
    weather_description := "Mainly clear"
    wind_speed_kmh := 12
    humidity_percent := 55 }

/-- Two waypoints of different routes that share a bucket key: both
coordinates round to (10.00, 20.00) and both times fall in the same
clock hour. -/
def sharedKeyWaypointA : Waypoint :=
  { location := { lat := 10 + 1/1000, lng := 20 }
    minutes_from_start := 0
    estimated_time_sec := 3600000
    weather := none }

/-- See sharedKeyWaypointA. -/
def sharedKeyWaypointB : Waypoint :=
  { location := { lat := 10 + 4/1000, lng := 20 - 2/1000 }
    minutes_from_start := 30
    estimated_time_sec := 3601800
    weather := none }

/-- Witness for C5: the two key-sharing waypoints above receive the
same observation from the resolver. -/
theorem weather_fanout_consistent_witness :
    (attachWeather (fun _ => some clearObservation) sharedKeyWaypointA).weather =
    (attachWeather (fun _ => some clearObservation) sharedKeyWaypointB).weather :=
  weather_fanout_consistent (fun _ => some clearObservation)
    [sharedKeyWaypointA, sharedKeyWaypointB] _ _
    (List.mem_map_of_mem _ (by simp))
    (List.mem_map_of_mem _ (by simp))
    (by
      simp only [bucketKey, attachWeather, sharedKeyWaypointA,
        sharedKeyWaypointB, WeatherBucketKey.mk.injEq, round_eq]
      norm_num)

/-- C6: when the fetch of exactly one bucket key fails, every waypoint
of every other key keeps exactly the observation it gets in the
all-success outcome, the waypoints of the failed key get null, and the
request still yields a recommendation with a valid index. -/
theorem weather_failure_isolated (obs : WeatherBucketKey → WeatherData)
    (failedKey : WeatherBucketKey) (wps : List Waypoint)
    (minDuration : ℚ) (routes : List (ℚ × ℚ)) (hroutes : routes ≠ []) :
    (∀ wp ∈ wps, bucketKey wp ≠ failedKey →
      (attachWeather (oneKeyFailed obs failedKey) wp).weather =
        (attachWeather (allSuccess obs) wp).weather) ∧
    (∀ wp ∈ wps, bucketKey wp = failedKey →
      (attachWeather (oneKeyFailed obs failedKey) wp).weather = none) ∧
    recommendIndex (scoreRoutes minDuration routes) < routes.length := by
  refine ⟨?_, ?_, ?_⟩
  · intro wp _ hne
    simp [attachWeather, oneKeyFailed, allSuccess, hne]
  · intro wp _ heq
    simp [attachWeather, oneKeyFailed, heq]
  · have hne : scoreRoutes minDuration routes ≠ [] := fun hmap =>
      hroutes (List.map_eq_nil_iff.mp hmap)
    have := recommendIndex_lt _ hne
    have hlen : (scoreRoutes minDuration routes).length = routes.length :=
      List.length_map _ _
    omega

/-- A bucket key distinct from the key the two shared-key waypoints
fall into. -/
def distantFailedKey : WeatherBucketKey :=
  { lat_rounded := 5000, lng_rounded := 5000, hour_bucket := 0 }

/-- Witness for C6 at concrete data: with only distantFailedKey failing,
sharedKeyWaypointA keeps its all-success observation, a waypoint on the
failed key itself gets null, and the two-route request keeps a valid
recommended index. -/
theorem weather_failure_isolated_witness :
    (attachWeather (oneKeyFailed (fun _ => clearObservation) distantFailedKey)
        sharedKeyWaypointA).weather =
      (attachWeather (allSuccess (fun _ => clearObservation))
        sharedKeyWaypointA).weather ∧
    recommendIndex (scoreRoutes 60 [((60 : ℚ), (50 : ℚ)), (72, 50)]) <
      ([((60 : ℚ), (50 : ℚ)), (72, 50)]).length := by
  refine ⟨?_, ?_⟩
  · exact (weather_failure_isolated (fun _ => clearObservation) distantFailedKey
      [sharedKeyWaypointA] 60 [((60 : ℚ), (50 : ℚ)), (72, 50)] (by simp)).1
      sharedKeyWaypointA (by simp)
      (by
        simp only [bucketKey, sharedKeyWaypointA, distantFailedKey, ne_eq,
          WeatherBucketKey.mk.injEq, round_eq, not_and]
        norm_num)
  · exact (weather_failure_isolated (fun _ => clearObservation) distantFailedKey
      [sharedKeyWaypointA] 60 [((60 : ℚ), (50 : ℚ)), (72, 50)] (by simp)).2.2

/-- clampScore is monotone. -/
theorem clampScore_mono {x y : ℚ} (h : x ≤ y) : clampScore x ≤ clampScore y :=
  max_le_max le_rfl (min_le_min le_rfl h)

/-- durationScore is antitone in the duration ratio. -/
theorem durationScore_antitone {r1 r2 : ℚ} (h : r1 ≤ r2) :
    durationScore r2 ≤ durationScore r1 := by
  unfold durationScore
  exact clampScore_mono (by linarith)

/-- C7: with identical weather features (hence identical model output m)
and a longer duration for route B, route A scores at least as well as
route B on duration_score and on overall_score; duration_score is
antitone in duration_ratio and the fixed blend preserves the order. -/
theorem duration_monotonicity (m dA dB dmin : ℚ) (hmin : 0 < dmin)
    (hAB : dA ≤ dB) :
    durationScore (dB / dmin) ≤ durationScore (dA / dmin) ∧
    overallScore m (dB / dmin) ≤ overallScore m (dA / dmin) := by
  have hr : dA / dmin ≤ dB / dmin := by
    apply div_le_div_of_nonneg_right hAB hmin.le
  have hds := durationScore_antitone hr
  refine ⟨hds, ?_⟩
  unfold overallScore
  apply clampScore_mono
  have : DURATION_WEIGHT * durationScore (dB / dmin) ≤
      DURATION_WEIGHT * durationScore (dA / dmin) := by
    apply mul_le_mul_of_nonneg_left hds
    norm_num [DURATION_WEIGHT]
  linarith

/-- Witness for C7: route B takes 1.2 times the duration of route A. -/
theorem duration_monotonicity_witness :
    durationScore (72 / 60) ≤ durationScore (60 / 60) ∧
    overallScore 50 (72 / 60) ≤ overallScore 50 (60 / 60) :=
  duration_monotonicity 50 60 72 60 (by norm_num) (by norm_num)

/-- The number of cadence targets of a route of D seconds. -/
theorem cadenceTargets_length (D : ℕ) :
    (cadenceTargets D).length = D / CADENCE_SECONDS + 1 := by
  simp [cadenceTargets]

/-- The last cadence target is the largest multiple of the cadence that
fits in the total duration. -/
theorem cadenceTargets_getLast (D : ℕ) :
    (cadenceTargets D).getLast? = some (D / CADENCE_SECONDS * CADENCE_SECONDS) := by
  unfold cadenceTargets
  rw [List.range_succ, List.map_append]
  simp

/-- The first cadence target is 0. -/
theorem cadenceTargets_head (D : ℕ) : (cadenceTargets D).head? = some 0 := by
  unfold cadenceTargets
  rw [List.range_succ_eq_map]
  simp

/-- There is always at least one cadence target. -/
theorem cadenceTargets_ne_nil (D : ℕ) : cadenceTargets D ≠ [] := by
  simp [cadenceTargets]

/-- The sampler emits D/C + 1 waypoints when the cadence divides the
total duration, and one more (the appended true end) otherwise. -/
theorem sampleOffsets_length (D : ℕ) :
    (sampleOffsets D).length =
      if CADENCE_SECONDS ∣ D then D / CADENCE_SECONDS + 1
      else D / CADENCE_SECONDS + 2 := by
  unfold sampleOffsets
  rw [cadenceTargets_getLast]
  simp only [CADENCE_SECONDS, Option.some.injEq]
  have hlen := cadenceTargets_length D
  simp only [CADENCE_SECONDS] at hlen
  split
  · next h => rw [if_pos (by omega)]; omega
  · next h =>
      rw [if_neg (fun hd => h (by omega))]
      simp only [List.length_append, List.length_singleton]
      omega

/-- The first emitted offset is 0. -/
theorem sampleOffsets_head (D : ℕ) : (sampleOffsets D).head? = some 0 := by
  unfold sampleOffsets
  obtain ⟨a, l, hl⟩ := List.exists_cons_of_ne_nil (cadenceTargets_ne_nil D)
  have h0 := cadenceTargets_head D
  rw [hl] at h0
  simp only [List.head?_cons, Option.some.injEq] at h0
  subst h0
  split <;> rw [hl] <;> rfl

/-- The last emitted offset is exactly the total duration. -/
theorem sampleOffsets_getLast (D : ℕ) :
    (sampleOffsets D).getLast? = some D := by
  unfold sampleOffsets
  split
  · next h => exact h
  · simp

/-- The emitted offsets are strictly increasing. -/
theorem sampleOffsets_chain (D : ℕ) :
    List.Chain' (· < ·) (sampleOffsets D) := by
  have hc : List.Chain' (· < ·) (cadenceTargets D) := by
    unfold cadenceTargets
    rw [List.chain'_map]
    apply List.Pairwise.chain'
    apply List.Pairwise.imp ?_ (List.pairwise_lt_range _)
    intro a b hab
    simp only [CADENCE_SECONDS]
    omega
  unfold sampleOffsets
  split
  · exact hc
  · next h =>
      apply List.Chain'.append hc (List.chain'_singleton D)
      intro x hx y hy
      rw [cadenceTargets_getLast] at hx h
      simp only [Option.mem_def, List.head?_cons, Option.some.injEq] at hx hy
      subst hx
      subst hy
      simp only [Option.some.injEq, CADENCE_SECONDS] at h ⊢
      omega

/-- C3: a well-formed route of D seconds yields ⌈D/C⌉ + 1 waypoints,
exactly D/C + 1 when the cadence divides D (no duplicated end), and
exactly 2 when the route is shorter than one cadence interval. -/
theorem routeSampler_waypoint_count (D : ℕ) (hD : 0 < D) :
    (sampleOffsets D).length = (D + CADENCE_SECONDS - 1) / CADENCE_SECONDS + 1 ∧
    (CADENCE_SECONDS ∣ D → (sampleOffsets D).length = D / CADENCE_SECONDS + 1) ∧
    (D < CADENCE_SECONDS → (sampleOffsets D).length = 2) := by
  have hlen := sampleOffsets_length D
  simp only [CADENCE_SECONDS] at hlen ⊢
  refine ⟨?_, ?_, ?_⟩
  · by_cases h : 900 ∣ D <;> simp only [h, if_true, if_false] at hlen <;> omega
  · intro hdvd
    rw [if_pos hdvd] at hlen
    exact hlen
  · intro hlt
    by_cases h : 900 ∣ D <;> simp only [h, if_true, if_false] at hlen <;> omega

/-- Witness for C3 at durations 1000 s (not cadence-aligned), 1800 s
(an exact multiple) and 500 s (shorter than one interval). -/
theorem routeSampler_waypoint_count_witness :
    (sampleOffsets 1000).length = (1000 + CADENCE_SECONDS - 1) / CADENCE_SECONDS + 1 ∧
    (sampleOffsets 1800).length = 1800 / CADENCE_SECONDS + 1 ∧
    (sampleOffsets 500).length = 2 :=
  ⟨(routeSampler_waypoint_count 1000 (by norm_num)).1,
   (routeSampler_waypoint_count 1800 (by norm_num)).2.1 ⟨2, rfl⟩,
   (routeSampler_waypoint_count 500 (by norm_num)).2.2 (by decide)⟩

/-- C4: the minutes_from_start sequence of a well-formed route is
strictly ascending, starts at 0 and ends at the total duration in
minutes, cadence-aligned or not. -/
theorem routeSampler_waypoint_order (D : ℕ) (_hD : 0 < D) :
    List.Chain' (· < ·) (waypointMinutes D) ∧
    (waypointMinutes D).head? = some 0 ∧
    (waypointMinutes D).getLast? = some ((D : ℚ) / 60) := by
  refine ⟨?_, ?_, ?_⟩
  · unfold waypointMinutes
    rw [List.chain'_map]
    apply List.Chain'.imp ?_ (sampleOffsets_chain D)
    intro a b hab
    have hq : (a : ℚ) < b := by exact_mod_cast hab
    linarith
  · unfold waypointMinutes
    rw [List.head?_map, sampleOffsets_head]
    simp
  · unfold waypointMinutes
    rw [List.getLast?_map, sampleOffsets_getLast]
    simp

/-- Witness for C4 at the non-cadence-aligned duration 1000 s. -/
theorem routeSampler_waypoint_order_witness :
    List.Chain' (· < ·) (waypointMinutes 1000) ∧
    (waypointMinutes 1000).head? = some 0 ∧
    (waypointMinutes 1000).getLast? = some ((1000 : ℚ) / 60) :=
  routeSampler_waypoint_order 1000 (by norm_num)

/-- Converting 0 degrees gives 0 radians. -/
theorem radians_zero : radians 0 = 0 := by
  unfold radians
  ring

/-- C9 counterexample: the claim says haversineMeters a b = 0 only when
a = b, but the two distinct coordinate pairs poleA and poleB (both at
latitude 90) are at haversine distance 0: at the pole the cosine factor
vanishes, so the longitude difference contributes nothing. -/
theorem haversine_zero_at_distinct_points :
    haversineMeters poleA poleB = 0 ∧ poleA ≠ poleB := by
  constructor
  · have key : Real.cos (radians (90 : ℝ)) = 0 := by
      unfold radians
      rw [show (90 : ℝ) * Real.pi / 180 = Real.pi / 2 by ring]
      exact Real.cos_pi_div_two
    simp [haversineMeters, poleA, poleB, sub_self, sub_zero, radians_zero,
      key, Real.sin_zero, Real.sqrt_zero, Real.arcsin_zero]
  · intro h
    have := congrArg GeoPoint.lng h
    simp only [poleA, poleB] at this
    norm_num at this

/-- C9 amended: haversineMeters vanishes on equal points and is
symmetric (and so vanishes whenever a = b); the converse — distance 0
forcing a = b — is exactly what haversine_zero_at_distinct_points
refutes. -/
theorem haversine_reflexive_and_symmetric :
    (∀ p : GeoPoint, haversineMeters p p = 0) ∧
    (∀ a b : GeoPoint, haversineMeters a b = haversineMeters b a) := by
  constructor
  · intro p
    simp [haversineMeters, sub_self, radians_zero, Real.sin_zero,
      Real.sqrt_zero, Real.arcsin_zero]
  · intro a b
    unfold haversineMeters
    have hs : ∀ x y : ℝ,
        Real.sin (radians (x - y) / 2) ^ 2 = Real.sin (radians (y - x) / 2) ^ 2 := by
      intro x y
      rw [show radians (x - y) / 2 = -(radians (y - x) / 2) by unfold radians; ring]
      rw [Real.sin_neg]
      ring
    rw [hs b.lat a.lat, hs b.lng a.lng,
      mul_comm (Real.cos (radians a.lat)) (Real.cos (radians b.lat))]

end RouteWeather
